import Mathlib

/-!
Shallow embedding of the English Booster affiliate system backend
(TypeScript + drizzle-orm handlers over a relational schema).

Modelling conventions:
* Numeric database columns (money amounts, commission rates) are rationals
  (in the source they are stored as decimal strings and converted with
  parseFloat; the string round-trip is elided).
* Timestamps are naturals; each handler receives the current time as an
  explicit argument replacing new Date().
* Serial primary keys are naturals; a handler that inserts a row receives
  the freshly drawn id as an explicit argument.
* A table is a list of rows; db.select().where(cond) becomes List.filter,
  and a handler reading result[0] matches on the head of the filtered list.
* A handler that can throw returns Except String; the TypeScript handlers
  throw before performing any insert or update, so in an error case no new
  database value is produced and the state is unchanged by construction.
* drizzle update(...).set(values) drops keys whose value is undefined,
  so an optional input field that is absent leaves the column unchanged;
  this is modelled where relevant (approved_by, processed_by).
-/

namespace EnglishBooster

/-- Enum user_role from db/schema.ts. -/
inductive UserRole
  | admin
  | affiliate
deriving DecidableEq

/-- Enum affiliate_status from db/schema.ts. -/
inductive AffiliateStatus
  | pending
  | approved
  | rejected
  | suspended
deriving DecidableEq

/-- Enum program_category from db/schema.ts. -/
inductive ProgramCategory
  | online
  | offline_pare
  | group
  | branch
deriving DecidableEq

/-- Enum program_location from db/schema.ts. -/
inductive ProgramLocation
  | online
  | pare
  | malang
  | sidoarjo
  | nganjuk
deriving DecidableEq

/-- Enum registration_status from db/schema.ts. -/
inductive RegistrationStatus
  | pending
  | confirmed
  | cancelled
deriving DecidableEq

/-- Enum payout_status from db/schema.ts. -/
inductive PayoutStatus
  | pending
  | processing
  | completed
  | failed
deriving DecidableEq

/-- Enum payout_method from db/schema.ts. -/
inductive PayoutMethod
  | bank_transfer
  | ewallet
deriving DecidableEq

/-- Row of the users table (db/schema.ts). -/
structure User where
  id : ℕ
  email : String
  password_hash : String
  full_name : String
  phone : Option String
  role : UserRole
  created_at : ℕ
  updated_at : ℕ
deriving DecidableEq

/-- Row of the affiliates table (db/schema.ts). -/
structure Affiliate where
  id : ℕ
  user_id : ℕ
  referral_code : String
  bank_name : Option String
  bank_account_number : Option String
  bank_account_name : Option String
  ewallet_type : Option String
  ewallet_number : Option String
  commission_rate : ℚ
  status : AffiliateStatus
  approved_by : Option ℕ
  approved_at : Option ℕ
  created_at : ℕ
  updated_at : ℕ
deriving DecidableEq

/-- Row of the programs table (db/schema.ts). -/
structure Program where
  id : ℕ
  name : String
  description : Option String
  category : ProgramCategory
  location : ProgramLocation
  price : ℚ
  duration_weeks : Option ℕ
  is_active : Bool
  created_at : ℕ
  updated_at : ℕ
deriving DecidableEq

/-- Row of the student_registrations table (db/schema.ts). -/
structure StudentRegistration where
  id : ℕ
  affiliate_id : ℕ
  program_id : ℕ
  student_name : String
  student_email : String
  student_phone : String
  student_address : Option String
  referral_code : String
  status : RegistrationStatus
  registration_fee : ℚ
  commission_amount : ℚ
  confirmed_by : Option ℕ
  confirmed_at : Option ℕ
  created_at : ℕ
  updated_at : ℕ
deriving DecidableEq

/-- Row of the commission_payouts table (db/schema.ts). -/
structure CommissionPayout where
  id : ℕ
  affiliate_id : ℕ
  amount : ℚ
  method : PayoutMethod
  bank_details : Option String
  ewallet_details : Option String
  status : PayoutStatus
  processed_by : Option ℕ
  processed_at : Option ℕ
  notes : Option String
  created_at : ℕ
  updated_at : ℕ
deriving DecidableEq

/-- The database: one list per table. -/
structure DB where
  users : List User
  affiliates : List Affiliate
  programs : List Program
  registrations : List StudentRegistration
  payouts : List CommissionPayout
deriving DecidableEq

/-- Helper: is an Except value a success. -/
def isOkE {ε α : Type} : Except ε α → Bool
  | Except.ok _ => true
  | Except.error _ => false

/-- Helper: the payload of a successful Except value. -/
def okE {ε α : Type} : Except ε α → Option α
  | Except.ok a => some a
  | Except.error _ => none

/-! ## Input types (zod schemas in db/schema.ts) -/

/-- createCommissionPayoutInputSchema. -/
structure CreateCommissionPayoutInput where
  affiliate_id : ℕ
  amount : ℚ
  method : PayoutMethod
  bank_details : Option String
  ewallet_details : Option String
  notes : Option String
deriving DecidableEq

/-- getAffiliateStatsInputSchema; the optional dates are kept as options. -/
structure GetAffiliateStatsInput where
  affiliate_id : ℕ
  start_date : Option ℕ
  end_date : Option ℕ
deriving DecidableEq

/-- createStudentRegistrationInputSchema. -/
structure CreateStudentRegistrationInput where
  affiliate_id : ℕ
  program_id : ℕ
  student_name : String
  student_email : String
  student_phone : String
  student_address : Option String
  referral_code : String
deriving DecidableEq

/-- updateAffiliateStatusInputSchema; approved_by is optional. -/
structure UpdateAffiliateStatusInput where
  affiliate_id : ℕ
  status : AffiliateStatus
  approved_by : Option ℕ
deriving DecidableEq

/-- updateRegistrationStatusInputSchema; confirmed_by is optional. -/
structure UpdateRegistrationStatusInput where
  registration_id : ℕ
  status : RegistrationStatus
  confirmed_by : Option ℕ
deriving DecidableEq

/-- updatePayoutStatusInputSchema; processed_by is optional, notes is
optional and nullable (none = absent, some none = explicit null). -/
structure UpdatePayoutStatusInput where
  payout_id : ℕ
  status : PayoutStatus
  processed_by : Option ℕ
  notes : Option (Option String)
deriving DecidableEq

/-- createAffiliateInputSchema. -/
structure CreateAffiliateInput where
  user_id : ℕ
  bank_name : Option String
  bank_account_number : Option String
  bank_account_name : Option String
  ewallet_type : Option String
  ewallet_number : Option String
  commission_rate : ℚ
deriving DecidableEq

/-- AffiliateStats response record (schema.ts / getAffiliateStats). -/
structure AffiliateStats where
  total_registrations : ℕ
  confirmed_registrations : ℕ
  pending_registrations : ℕ
  total_commission_earned : ℚ
  total_commission_paid : ℚ
  pending_commission : ℚ
  available_for_payout : ℚ
deriving DecidableEq

/-! ## Handler: createCommissionPayout
(src/server/src/handlers/create_commission_payout.ts) -/

/-- SQL sum of commission_amount over the registrations of the affiliate with
status confirmed (the confirmedEarnings query in the handler). -/
def confirmedEarnings (db : DB) (affId : ℕ) : ℚ :=
  ((db.registrations.filter
      (fun r => r.affiliate_id == affId && r.status == RegistrationStatus.confirmed)).map
    (fun r => r.commission_amount)).sum

/-- SQL sum of amount over the payouts of the affiliate with status completed
(the completedPayouts query in the handler). -/
def completedPayoutTotal (db : DB) (affId : ℕ) : ℚ :=
  ((db.payouts.filter
      (fun p => p.affiliate_id == affId && p.status == PayoutStatus.completed)).map
    (fun p => p.amount)).sum

/-- Sum of amount over the payouts of the affiliate with status pending or
processing.  The createCommissionPayout handler does NOT compute this
quantity; it is used by getAffiliateStats and by the balance
formula. -/
def pendingProcessingPayoutTotal (db : DB) (affId : ℕ) : ℚ :=
  ((db.payouts.filter
      (fun p => p.affiliate_id == affId &&
        (p.status == PayoutStatus.pending || p.status == PayoutStatus.processing))).map
    (fun p => p.amount)).sum

/-- Modelled from the spec: available balance =
Σ(commission_amount where registration.status = confirmed)
− Σ(amount where payout.status = completed)
− Σ(amount where payout.status ∈ {pending, processing}).
This is the formula of the spec, written for comparison with what
createCommissionPayout actually computes. -/
def specAvailableBalance (db : DB) (affId : ℕ) : ℚ :=
  confirmedEarnings db affId - completedPayoutTotal db affId -
    pendingProcessingPayoutTotal db affId

/-- Translation of createCommissionPayout.  Note that availableBalance is
totalEarnings - totalPaidOut: the handler subtracts only completed
payouts, not pending or processing ones. -/
def createCommissionPayout (db : DB) (input : CreateCommissionPayoutInput)
    (newId now : ℕ) : Except String (DB × CommissionPayout) :=
  match db.affiliates.filter (fun a => a.id == input.affiliate_id) with
  | [] => Except.error "Affiliate not found"
  | a :: _ =>
    if a.status ≠ AffiliateStatus.approved then
      Except.error "Only approved affiliates can request payouts"
    else
      let totalEarnings := confirmedEarnings db input.affiliate_id
      let totalPaidOut := completedPayoutTotal db input.affiliate_id
      let availableBalance := totalEarnings - totalPaidOut
      if availableBalance < input.amount then
        Except.error "Insufficient commission balance"
      else
        let payout : CommissionPayout :=
          { id := newId
            affiliate_id := input.affiliate_id
            amount := input.amount
            method := input.method
            bank_details := input.bank_details
            ewallet_details := input.ewallet_details
            status := PayoutStatus.pending
            processed_by := none
            processed_at := none
            notes := input.notes
            created_at := now
            updated_at := now }
        Except.ok ({ db with payouts := db.payouts ++ [payout] }, payout)

/-! ## Handler: getAffiliateStats (src/unnamed/part_000) -/

/-- The created_at range check assembled from the optional start_date
(gte) and end_date (lte) conditions. -/
def inDateRange (createdAt : ℕ) (startDate endDate : Option ℕ) : Bool :=
  (match startDate with
   | none => true
   | some s => s ≤ createdAt) &&
  (match endDate with
   | none => true
   | some e => createdAt ≤ e)

/-- Translation of getAffiliateStats: filters the rows of the affiliate by the
optional date range, counts registrations, and folds the commission and
payout amounts exactly as the reduce calls in the handler do. -/
def getAffiliateStats (db : DB) (input : GetAffiliateStatsInput) : AffiliateStats :=
  let registrations := db.registrations.filter
    (fun r => r.affiliate_id == input.affiliate_id &&
      inDateRange r.created_at input.start_date input.end_date)
  let payouts := db.payouts.filter
    (fun p => p.affiliate_id == input.affiliate_id &&
      inDateRange p.created_at input.start_date input.end_date)
  let totalRegistrations := registrations.length
  let confirmedRegistrations :=
    (registrations.filter (fun r => r.status == RegistrationStatus.confirmed)).length
  let pendingRegistrations :=
    (registrations.filter (fun r => r.status == RegistrationStatus.pending)).length
  let totalCommissionEarned :=
    (registrations.filter (fun r => r.status == RegistrationStatus.confirmed)).foldl
      (fun s r => s + r.commission_amount) (0 : ℚ)
  let totalCommissionPaid :=
    (payouts.filter (fun p => p.status == PayoutStatus.completed)).foldl
      (fun s p => s + p.amount) (0 : ℚ)
  let pendingCommission :=
    (payouts.filter
        (fun p => p.status == PayoutStatus.pending || p.status == PayoutStatus.processing)).foldl
      (fun s p => s + p.amount) (0 : ℚ)
  let availableAmount := totalCommissionEarned - totalCommissionPaid - pendingCommission
  let availableForPayout := if 100000 ≤ availableAmount then availableAmount else 0
  { total_registrations := totalRegistrations
    confirmed_registrations := confirmedRegistrations
    pending_registrations := pendingRegistrations
    total_commission_earned := totalCommissionEarned
    total_commission_paid := totalCommissionPaid
    pending_commission := pendingCommission
    available_for_payout := availableForPayout }

/-! ## Handler: createStudentRegistration
(second file in src/server/src/handlers/get_programs.ts) -/

/-- Translation of createStudentRegistration: validates the affiliate
(id and referral code together, then approved status), then the program
(existence, then is_active), computes the snapshot fee and commission,
and inserts the row with status pending. -/
def createStudentRegistration (db : DB) (input : CreateStudentRegistrationInput)
    (newId now : ℕ) : Except String (DB × StudentRegistration) :=
  match db.affiliates.filter
      (fun a => a.id == input.affiliate_id && a.referral_code == input.referral_code) with
  | [] => Except.error "Invalid affiliate ID or referral code"
  | a :: _ =>
    if a.status ≠ AffiliateStatus.approved then
      Except.error "Affiliate is not approved for registrations"
    else
      match db.programs.filter (fun p => p.id == input.program_id) with
      | [] => Except.error "Program not found"
      | p :: _ =>
        if !p.is_active then
          Except.error "Program is not active"
        else
          let programPrice := p.price
          let commissionAmount := programPrice * a.commission_rate
          let reg : StudentRegistration :=
            { id := newId
              affiliate_id := input.affiliate_id
              program_id := input.program_id
              student_name := input.student_name
              student_email := input.student_email
              student_phone := input.student_phone
              student_address := input.student_address
              referral_code := input.referral_code
              status := RegistrationStatus.pending
              registration_fee := programPrice
              commission_amount := commissionAmount
              confirmed_by := none
              confirmed_at := none
              created_at := now
              updated_at := now }
          Except.ok ({ db with registrations := db.registrations ++ [reg] }, reg)

/-! ## Handler: updateAffiliateStatus
(src/server/src/handlers/update_affiliate_status.ts) -/

/-- The row update performed by updateAffiliateStatus on a matching row.
When the new status is approved, approved_at is set to now and approved_by
is set to input.approved_by; an absent approved_by is an undefined value,
which drizzle drops from the update, leaving the column unchanged.  For
every other status both columns are set to null. -/
def applyAffiliateUpdate (input : UpdateAffiliateStatusInput) (now : ℕ)
    (a : Affiliate) : Affiliate :=
  if a.id == input.affiliate_id then
    { a with
      status := input.status
      updated_at := now
      approved_by :=
        if input.status == AffiliateStatus.approved then
          match input.approved_by with
          | some u => some u
          | none => a.approved_by
        else none
      approved_at :=
        if input.status == AffiliateStatus.approved then some now else none }
  else a

/-- Translation of updateAffiliateStatus: updates every matching row and
returns the first one; throws when no row matches. -/
def updateAffiliateStatus (db : DB) (input : UpdateAffiliateStatusInput)
    (now : ℕ) : Except String (DB × Affiliate) :=
  match db.affiliates.filter (fun a => a.id == input.affiliate_id) with
  | [] => Except.error "Affiliate not found"
  | a :: _ =>
    Except.ok
      ({ db with affiliates := db.affiliates.map (applyAffiliateUpdate input now) },
       applyAffiliateUpdate input now a)

/-! ## Handler: updateRegistrationStatus (src/unnamed/part_001) -/

/-- The row update performed by updateRegistrationStatus on a matching
row.  When the new status is confirmed, confirmed_at is set to now and
confirmed_by is input.confirmed_by || null (so an absent, and also a
falsy 0, value becomes null); for every other status both columns are set
to null. -/
def applyRegistrationUpdate (input : UpdateRegistrationStatusInput) (now : ℕ)
    (r : StudentRegistration) : StudentRegistration :=
  if r.id == input.registration_id then
    { r with
      status := input.status
      updated_at := now
      confirmed_by :=
        if input.status == RegistrationStatus.confirmed then
          match input.confirmed_by with
          | some u => if u == 0 then none else some u
          | none => none
        else none
      confirmed_at :=
        if input.status == RegistrationStatus.confirmed then some now else none }
  else r

/-- Translation of updateRegistrationStatus: updates every matching row
and returns the first one; throws when no row matches. -/
def updateRegistrationStatus (db : DB) (input : UpdateRegistrationStatusInput)
    (now : ℕ) : Except String (DB × StudentRegistration) :=
  match db.registrations.filter (fun r => r.id == input.registration_id) with
  | [] => Except.error "Student registration not found"
  | r :: _ =>
    Except.ok
      ({ db with registrations := db.registrations.map (applyRegistrationUpdate input now) },
       applyRegistrationUpdate input now r)

/-! ## Handler: updatePayoutStatus
(src/server/src/handlers/update_payout_status.ts) -/

/-- The row update performed by updatePayoutStatus on a matching row.
When the new status is completed or failed, processed_at is set to now and
processed_by is set to input.processed_by (an absent value is undefined
and is dropped by drizzle, leaving the column unchanged).  For other
statuses the processed columns are not part of the update at all, so they
keep their previous values.  notes is updated only when present in the
input (it may be an explicit null). -/
def applyPayoutUpdate (input : UpdatePayoutStatusInput) (now : ℕ)
    (p : CommissionPayout) : CommissionPayout :=
  if p.id == input.payout_id then
    { p with
      status := input.status
      updated_at := now
      processed_by :=
        if input.status == PayoutStatus.completed || input.status == PayoutStatus.failed then
          match input.processed_by with
          | some u => some u
          | none => p.processed_by
        else p.processed_by
      processed_at :=
        if input.status == PayoutStatus.completed || input.status == PayoutStatus.failed then
          some now
        else p.processed_at
      notes :=
        match input.notes with
        | some n => n
        | none => p.notes }
  else p

/-- Translation of updatePayoutStatus: checks the payout exists, then
updates every matching row and returns the first one. -/
def updatePayoutStatus (db : DB) (input : UpdatePayoutStatusInput)
    (now : ℕ) : Except String (DB × CommissionPayout) :=
  match db.payouts.filter (fun p => p.id == input.payout_id) with
  | [] => Except.error "Commission payout not found"
  | p :: _ =>
    Except.ok
      ({ db with payouts := db.payouts.map (applyPayoutUpdate input now) },
       applyPayoutUpdate input now p)

/-! ## Handler: createAffiliate
(src/server/src/handlers/create_affiliate.ts) -/

/-- The referral-code generation loop of createAffiliate.  gen models the
Math.random based generator, indexed by the attempt number; existing is
the list of referral codes already in the affiliates table.  Returns the
fresh code together with the number of attempts used, or the error thrown
when the bound of 10 attempts is reached without finding a unique code. -/
def codeLoop (existing : List String) (gen : ℕ → String) (attempts : ℕ) :
    Except String (String × ℕ) :=
  if h1 : 10 ≤ attempts + 1 ∧ gen attempts ∈ existing then
    Except.error "Unable to generate unique referral code"
  else if h2 : gen attempts ∈ existing then
    codeLoop existing gen (attempts + 1)
  else
    Except.ok (gen attempts, attempts + 1)
termination_by 10 - attempts
decreasing_by
  have h3 : attempts + 1 < 10 := by
    by_contra hc
    exact h1 ⟨by omega, h2⟩
  omega

/-- Translation of createAffiliate: checks the user exists and has no
affiliate profile yet, runs the referral-code loop, and inserts the new
affiliate with status pending. -/
def createAffiliate (db : DB) (input : CreateAffiliateInput) (gen : ℕ → String)
    (newId now : ℕ) : Except String (DB × Affiliate) :=
  if (db.users.filter (fun u => u.id == input.user_id)).length == 0 then
    Except.error "User not found"
  else if 0 < (db.affiliates.filter (fun a => a.user_id == input.user_id)).length then
    Except.error "User already has an affiliate profile"
  else
    match codeLoop (db.affiliates.map (fun a => a.referral_code)) gen 0 with
    | Except.error e => Except.error e
    | Except.ok (code, _) =>
      let aff : Affiliate :=
        { id := newId
          user_id := input.user_id
          referral_code := code
          bank_name := input.bank_name
          bank_account_number := input.bank_account_number
          bank_account_name := input.bank_account_name
          ewallet_type := input.ewallet_type
          ewallet_number := input.ewallet_number
          commission_rate := input.commission_rate
          status := AffiliateStatus.pending
          approved_by := none
          approved_at := none
          created_at := now
          updated_at := now }
      Except.ok ({ db with affiliates := db.affiliates ++ [aff] }, aff)

/-! ## Theorems -/

/-- Boolean equality on AffiliateStatus is decidable equality. -/
lemma beq_affiliateStatus (x y : AffiliateStatus) : (x == y) = decide (x = y) := rfl

/-- Boolean equality on RegistrationStatus is decidable equality. -/
lemma beq_registrationStatus (x y : RegistrationStatus) : (x == y) = decide (x = y) := rfl

/-- Boolean equality on PayoutStatus is decidable equality. -/
lemma beq_payoutStatus (x y : PayoutStatus) : (x == y) = decide (x = y) := rfl

/-- A row returned as the head of a filtered table satisfies the filter
predicate. -/
lemma head_filter_pred {α : Type} (p : α → Bool) (l : List α) (a : α)
    (rest : List α) (h : l.filter p = a :: rest) : p a = true := by
  have ha : a ∈ l.filter p := by
    rw [h]
    exact List.mem_cons_self a rest
  exact (List.mem_filter.mp ha).2

/-- Claim C2: getAffiliateStats reports available_for_payout equal to
total confirmed commission earned minus completed payouts minus
pending/processing payouts when that difference is at least 100000, and 0
otherwise; in particular a balance below IDR 100000 is never reported as
available. -/
theorem getAffiliateStats_min_payout (db : DB) (input : GetAffiliateStatsInput) :
    (100000 ≤ (getAffiliateStats db input).total_commission_earned -
        (getAffiliateStats db input).total_commission_paid -
        (getAffiliateStats db input).pending_commission →
      (getAffiliateStats db input).available_for_payout =
        (getAffiliateStats db input).total_commission_earned -
          (getAffiliateStats db input).total_commission_paid -
          (getAffiliateStats db input).pending_commission) ∧
    ((getAffiliateStats db input).total_commission_earned -
        (getAffiliateStats db input).total_commission_paid -
        (getAffiliateStats db input).pending_commission < 100000 →
      (getAffiliateStats db input).available_for_payout = 0) := by
  constructor
  · intro h
    simp only [getAffiliateStats] at h ⊢
    rw [if_pos h]
  · intro h
    simp only [getAffiliateStats] at h ⊢
    rw [if_neg (not_le.mpr h)]

/-- Empty database used for the C2 witness. -/
def emptyDB : DB :=
  { users := [], affiliates := [], programs := [], registrations := [], payouts := [] }

/-- Stats query used for the C2 witness. -/
def wStatsIn : GetAffiliateStatsInput :=
  { affiliate_id := 1, start_date := none, end_date := none }

/-- Witness for claim C2: on the empty database the balance is 0, which
is below 100000, so available_for_payout is reported as 0. -/
theorem getAffiliateStats_min_payout_witness :
    (getAffiliateStats emptyDB wStatsIn).available_for_payout = 0 :=
  (getAffiliateStats_min_payout emptyDB wStatsIn).2
    (by norm_num [getAffiliateStats, emptyDB, wStatsIn])

/-- Claim C3: when validation passes, createStudentRegistration snapshots
registration_fee as the program price and commission_amount as price
times the affiliate commission rate, and creates the row with status
pending and null confirmed_by / confirmed_at. -/
theorem createStudentRegistration_snapshot (db : DB)
    (input : CreateStudentRegistrationInput) (newId now : ℕ)
    (a : Affiliate) (arest : List Affiliate) (p : Program) (prest : List Program)
    (ha : db.affiliates.filter
      (fun x => x.id == input.affiliate_id && x.referral_code == input.referral_code) =
      a :: arest)
    (hs : a.status = AffiliateStatus.approved)
    (hp : db.programs.filter (fun x => x.id == input.program_id) = p :: prest)
    (hact : p.is_active = true) :
    ∃ db2 r, createStudentRegistration db input newId now = Except.ok (db2, r) ∧
      r.registration_fee = p.price ∧
      r.commission_amount = p.price * a.commission_rate ∧
      r.status = RegistrationStatus.pending ∧
      r.confirmed_by = none ∧ r.confirmed_at = none := by
  unfold createStudentRegistration
  rw [ha, hp]
  simp only [hs, hact]
  norm_num
  exact ⟨_, _, ⟨rfl, rfl⟩, rfl, rfl, rfl, rfl, rfl⟩

/-- Affiliate row used for the C3 witness. -/
def wAffC3 : Affiliate :=
  { id := 1, user_id := 1, referral_code := "EBAAA", bank_name := none
    bank_account_number := none, bank_account_name := none, ewallet_type := none
    ewallet_number := none, commission_rate := 1/10
    status := AffiliateStatus.approved, approved_by := some 2, approved_at := some 1
    created_at := 0, updated_at := 0 }

/-- Program row used for the C3 witness. -/
def wProgC3 : Program :=
  { id := 3, name := "Online TOEFL Prep", description := none
    category := ProgramCategory.online, location := ProgramLocation.online
    price := 1500000, duration_weeks := some 8, is_active := true
    created_at := 0, updated_at := 0 }

/-- Database used for the C3 witness. -/
def wDbC3 : DB :=
  { users := [], affiliates := [wAffC3], programs := [wProgC3]
    registrations := [], payouts := [] }

/-- Input used for the C3 witness. -/
def wInC3 : CreateStudentRegistrationInput :=
  { affiliate_id := 1, program_id := 3, student_name := "Student"
    student_email := "s@example.com", student_phone := "081"
    student_address := none, referral_code := "EBAAA" }

/-- Witness for claim C3 at a concrete database and input. -/
theorem createStudentRegistration_snapshot_witness :
    ∃ db2 r, createStudentRegistration wDbC3 wInC3 7 9 = Except.ok (db2, r) ∧
      r.registration_fee = wProgC3.price ∧
      r.commission_amount = wProgC3.price * wAffC3.commission_rate ∧
      r.status = RegistrationStatus.pending ∧
      r.confirmed_by = none ∧ r.confirmed_at = none :=
  createStudentRegistration_snapshot wDbC3 wInC3 7 9 wAffC3 [] wProgC3 []
    (by simp +decide [wDbC3, wAffC3, wInC3, List.filter])
    (by simp [wAffC3])
    (by simp +decide [wDbC3, wProgC3, wInC3, List.filter])
    (by simp [wProgC3])

/-- Claim C10: createStudentRegistration succeeds exactly when the first
affiliate row matching both the input affiliate_id and referral_code
exists and is approved, and the first program row matching the input
program_id exists and is active; in every other case it throws and, the
handler throwing before its insert, no registration row is created. -/
theorem createStudentRegistration_validation (db : DB)
    (input : CreateStudentRegistrationInput) (newId now : ℕ) :
    (∃ db2 r, createStudentRegistration db input newId now = Except.ok (db2, r)) ↔
    (∃ a arest, db.affiliates.filter
        (fun x => x.id == input.affiliate_id && x.referral_code == input.referral_code) =
        a :: arest ∧
      a.status = AffiliateStatus.approved ∧
      ∃ p prest, db.programs.filter (fun x => x.id == input.program_id) = p :: prest ∧
        p.is_active = true) := by
  unfold createStudentRegistration
  cases ha : db.affiliates.filter
      (fun x => x.id == input.affiliate_id && x.referral_code == input.referral_code) with
  | nil => simp
  | cons a arest =>
    by_cases hs : a.status = AffiliateStatus.approved
    · simp only [hs, ne_eq, not_true_eq_false, if_false]
      cases hp : db.programs.filter (fun x => x.id == input.program_id) with
      | nil => simp
      | cons p prest =>
        by_cases hact : p.is_active
        · simp [hs, hact]
        · simp [hs, hact, Bool.not_eq_true] at *
    · simp [hs]

/-- Claim C1 (amended): for a payout request whose affiliate exists and
is approved, createCommissionPayout rejects the request exactly when the
requested amount exceeds confirmed commission earnings minus completed
payouts.  Payouts with status pending or processing are NOT subtracted by
this handler. -/
theorem createCommissionPayout_rejects_iff (db : DB)
    (input : CreateCommissionPayoutInput) (newId now : ℕ)
    (a : Affiliate) (rest : List Affiliate)
    (hfind : db.affiliates.filter (fun x => x.id == input.affiliate_id) = a :: rest)
    (happr : a.status = AffiliateStatus.approved) :
    (∃ e, createCommissionPayout db input newId now = Except.error e) ↔
      confirmedEarnings db input.affiliate_id -
        completedPayoutTotal db input.affiliate_id < input.amount := by
  unfold createCommissionPayout
  rw [hfind]
  simp only [happr, ne_eq, not_true_eq_false, if_false]
  by_cases hlt : confirmedEarnings db input.affiliate_id -
      completedPayoutTotal db input.affiliate_id < input.amount
  · simp [hlt]
  · simp [hlt]

/-- Affiliate row used for the C1 witness. -/
def wAffC1 : Affiliate :=
  { id := 1, user_id := 1, referral_code := "EBBBB", bank_name := none
    bank_account_number := none, bank_account_name := none, ewallet_type := none
    ewallet_number := none, commission_rate := 1/10
    status := AffiliateStatus.approved, approved_by := some 2, approved_at := some 1
    created_at := 0, updated_at := 0 }

/-- Database used for the C1 witness: no earnings at all. -/
def wDbC1 : DB :=
  { users := [], affiliates := [wAffC1], programs := [], registrations := [], payouts := [] }

/-- Input used for the C1 witness. -/
def wInC1 : CreateCommissionPayoutInput :=
  { affiliate_id := 1, amount := 100000, method := PayoutMethod.bank_transfer
    bank_details := none, ewallet_details := none, notes := none }

/-- Witness for claim C1: with no confirmed earnings a request of 100000
is rejected. -/
theorem createCommissionPayout_rejects_iff_witness :
    ∃ e, createCommissionPayout wDbC1 wInC1 5 9 = Except.error e :=
  (createCommissionPayout_rejects_iff wDbC1 wInC1 5 9 wAffC1 []
    (by simp +decide [wDbC1, wAffC1, wInC1, List.filter]) (by simp [wAffC1])).mpr
    (by norm_num [confirmedEarnings, completedPayoutTotal, wDbC1, wInC1])

/-- Affiliate row used for the C1 counterexample. -/
def cexAffC1 : Affiliate :=
  { id := 1, user_id := 1, referral_code := "EBCCC", bank_name := none
    bank_account_number := none, bank_account_name := none, ewallet_type := none
    ewallet_number := none, commission_rate := 1/10
    status := AffiliateStatus.approved, approved_by := some 2, approved_at := some 1
    created_at := 0, updated_at := 0 }

/-- Confirmed registration worth 200000 of commission, for the C1
counterexample. -/
def cexRegC1 : StudentRegistration :=
  { id := 1, affiliate_id := 1, program_id := 1, student_name := "S"
    student_email := "s@example.com", student_phone := "081"
    student_address := none, referral_code := "EBCCC"
    status := RegistrationStatus.confirmed, registration_fee := 2000000
    commission_amount := 200000, confirmed_by := some 2, confirmed_at := some 3
    created_at := 1, updated_at := 1 }

/-- A pending payout of 150000, for the C1 counterexample. -/
def cexPayC1 : CommissionPayout :=
  { id := 1, affiliate_id := 1, amount := 150000
    method := PayoutMethod.bank_transfer, bank_details := none
    ewallet_details := none, status := PayoutStatus.pending
    processed_by := none, processed_at := none, notes := none
    created_at := 2, updated_at := 2 }

/-- Database used for the C1 counterexample. -/
def cexDbC1 : DB :=
  { users := [], affiliates := [cexAffC1], programs := []
    registrations := [cexRegC1], payouts := [cexPayC1] }

/-- Input used for the C1 counterexample: a second request of 150000. -/
def cexInC1 : CreateCommissionPayoutInput :=
  { affiliate_id := 1, amount := 150000, method := PayoutMethod.bank_transfer
    bank_details := none, ewallet_details := none, notes := none }

/-- Counterexample to claim C1 as stated: with 200000 of confirmed
commission and a pending payout of 150000 already requested, the specified
available balance is 50000, so a request of 150000 exceeds it and the
claim demands rejection; the handler nevertheless accepts the request,
because it does not subtract pending or processing payouts. -/
theorem createCommissionPayout_claim_cex :
    specAvailableBalance cexDbC1 1 < cexInC1.amount ∧
      isOkE (createCommissionPayout cexDbC1 cexInC1 2 9) = true := by
  have hE : confirmedEarnings cexDbC1 1 = 200000 := by
    simp [confirmedEarnings, cexDbC1, cexRegC1, List.filter, beq_registrationStatus]
  have hP : completedPayoutTotal cexDbC1 1 = 0 := by
    simp [completedPayoutTotal, cexDbC1, cexPayC1, List.filter, beq_payoutStatus]
  have hQ : pendingProcessingPayoutTotal cexDbC1 1 = 150000 := by
    simp [pendingProcessingPayoutTotal, cexDbC1, cexPayC1, List.filter, beq_payoutStatus]
  constructor
  · rw [specAvailableBalance, hE, hP, hQ]
    norm_num [cexInC1]
  · have hbal : ¬ (confirmedEarnings cexDbC1 1 - completedPayoutTotal cexDbC1 1 <
        (150000 : ℚ)) := by
      rw [hE, hP]
      norm_num
    have hf : cexDbC1.affiliates.filter (fun x => x.id == cexInC1.affiliate_id) =
        [cexAffC1] := by
      simp [cexDbC1, cexAffC1, cexInC1, List.filter]
    unfold createCommissionPayout
    rw [hf]
    simp [show cexAffC1.status = AffiliateStatus.approved from rfl,
      show cexInC1.affiliate_id = 1 from rfl, show cexInC1.amount = 150000 from rfl,
      hbal, isOkE]

/-- Claim C9: createCommissionPayout throws when the affiliate does not
exist or is not approved; every error path throws before the insert, so
no payout row is produced in an error case, and on success exactly the
new payout row, with status pending, is appended and every other table is
untouched. -/
theorem createCommissionPayout_guards (db : DB)
    (input : CreateCommissionPayoutInput) (newId now : ℕ) :
    (db.affiliates.filter (fun x => x.id == input.affiliate_id) = [] →
      ∃ e, createCommissionPayout db input newId now = Except.error e) ∧
    (∀ a rest, db.affiliates.filter (fun x => x.id == input.affiliate_id) = a :: rest →
      a.status ≠ AffiliateStatus.approved →
      ∃ e, createCommissionPayout db input newId now = Except.error e) ∧
    (∀ db2 p, createCommissionPayout db input newId now = Except.ok (db2, p) →
      p.status = PayoutStatus.pending ∧
      db2.payouts = db.payouts ++ [p] ∧
      db2.affiliates = db.affiliates ∧
      db2.registrations = db.registrations ∧
      db2.users = db.users ∧
      db2.programs = db.programs) := by
  refine ⟨?_, ?_, ?_⟩
  · intro h
    unfold createCommissionPayout
    rw [h]
    exact ⟨_, rfl⟩
  · intro a rest hfind hstat
    unfold createCommissionPayout
    rw [hfind]
    simp [hstat]
  · intro db2 p h
    unfold createCommissionPayout at h
    cases hfind : db.affiliates.filter (fun x => x.id == input.affiliate_id) with
    | nil => rw [hfind] at h; exact absurd h (by simp)
    | cons a rest =>
      rw [hfind] at h
      by_cases hstat : a.status = AffiliateStatus.approved
      · simp only [hstat, ne_eq, not_true_eq_false, if_false] at h
        by_cases hlt : confirmedEarnings db input.affiliate_id -
            completedPayoutTotal db input.affiliate_id < input.amount
        · simp [hlt] at h
        · simp only [hlt, if_false] at h
          cases h
          exact ⟨rfl, rfl, rfl, rfl, rfl, rfl⟩
      · simp [hstat] at h

/-- Witness for claim C9: on the empty database the affiliate is not
found and the request is rejected. -/
theorem createCommissionPayout_guards_witness :
    ∃ e, createCommissionPayout emptyDB wInC1 5 9 = Except.error e :=
  (createCommissionPayout_guards emptyDB wInC1 5 9).1 (by simp [emptyDB])

/-- Witness for claim C10: on a database with an approved affiliate and
an active program, the registration is created. -/
theorem createStudentRegistration_validation_witness :
    ∃ db2 r, createStudentRegistration wDbC3 wInC3 4 8 = Except.ok (db2, r) :=
  (createStudentRegistration_validation wDbC3 wInC3 4 8).mpr
    ⟨wAffC3, [], by simp +decide [wDbC3, wAffC3, wInC3, List.filter],
     by simp [wAffC3],
     wProgC3, [], by simp +decide [wDbC3, wProgC3, wInC3, List.filter],
     by simp [wProgC3]⟩

/-- Claim C4 (amended): after a successful updateAffiliateStatus call,
the returned affiliate row has the new status; when the new status is
approved, approved_at is set to the current time and approved_by equals
the approved_by of the input whenever that optional field is provided (when it
is absent the column is left unchanged, since drizzle drops undefined
values); for every other status both columns are cleared to null. -/
theorem updateAffiliateStatus_approval_fields (db : DB)
    (input : UpdateAffiliateStatusInput) (now : ℕ)
    (a : Affiliate) (rest : List Affiliate)
    (hfind : db.affiliates.filter (fun x => x.id == input.affiliate_id) = a :: rest) :
    ∃ db2 a2, updateAffiliateStatus db input now = Except.ok (db2, a2) ∧
      a2.status = input.status ∧
      (input.status = AffiliateStatus.approved →
        a2.approved_at = some now ∧
        ∀ u, input.approved_by = some u → a2.approved_by = some u) ∧
      (input.status ≠ AffiliateStatus.approved →
        a2.approved_by = none ∧ a2.approved_at = none) := by
  have hid : (a.id == input.affiliate_id) = true :=
    head_filter_pred (fun x => x.id == input.affiliate_id) db.affiliates a rest hfind
  unfold updateAffiliateStatus
  rw [hfind]
  refine ⟨_, _, rfl, ?_, ?_, ?_⟩
  · simp [applyAffiliateUpdate, hid]
  · intro h
    constructor
    · simp [applyAffiliateUpdate, hid, h]
    · intro u hu
      simp [applyAffiliateUpdate, hid, h, hu]
  · intro h
    have hb : (input.status == AffiliateStatus.approved) = false := by
      simp [beq_affiliateStatus, h]
    constructor
    · simp [applyAffiliateUpdate, hid, hb]
    · simp [applyAffiliateUpdate, hid, hb]

/-- Pending affiliate row used for the C4 witness and counterexample. -/
def affC4 : Affiliate :=
  { id := 1, user_id := 1, referral_code := "EBDDD", bank_name := none
    bank_account_number := none, bank_account_name := none, ewallet_type := none
    ewallet_number := none, commission_rate := 1/20
    status := AffiliateStatus.pending, approved_by := none, approved_at := none
    created_at := 0, updated_at := 0 }

/-- Database used for the C4 witness and counterexample. -/
def dbC4 : DB :=
  { users := [], affiliates := [affC4], programs := [], registrations := [], payouts := [] }

/-- Approval input with approved_by provided, for the C4 witness. -/
def wInC4 : UpdateAffiliateStatusInput :=
  { affiliate_id := 1, status := AffiliateStatus.approved, approved_by := some 2 }

/-- Witness for claim C4 at a concrete database and input. -/
theorem updateAffiliateStatus_approval_fields_witness :
    ∃ db2 a2, updateAffiliateStatus dbC4 wInC4 5 = Except.ok (db2, a2) ∧
      a2.status = wInC4.status ∧
      (wInC4.status = AffiliateStatus.approved →
        a2.approved_at = some 5 ∧
        ∀ u, wInC4.approved_by = some u → a2.approved_by = some u) ∧
      (wInC4.status ≠ AffiliateStatus.approved →
        a2.approved_by = none ∧ a2.approved_at = none) :=
  updateAffiliateStatus_approval_fields dbC4 wInC4 5 affC4 []
    (by simp +decide [dbC4, affC4, wInC4, List.filter])

/-- Approval input without approved_by, for the C4 counterexample. -/
def cexInC4 : UpdateAffiliateStatusInput :=
  { affiliate_id := 1, status := AffiliateStatus.approved, approved_by := none }

/-- Counterexample to claim C4 as stated: approving an affiliate without
providing approved_by (the field is optional in the input schema, and the
own test of the handler expects null in this case) leaves approved_by null on
a row whose status is now approved, so approved_by is not set although
the new status is approved. -/
theorem updateAffiliateStatus_claim_cex :
    (okE (updateAffiliateStatus dbC4 cexInC4 10)).map
        (fun x => (x.2.status, x.2.approved_by, x.2.approved_at)) =
      some (AffiliateStatus.approved, none, some 10) := by
  have hf : dbC4.affiliates.filter (fun x => x.id == cexInC4.affiliate_id) = [affC4] := by
    simp [dbC4, affC4, cexInC4, List.filter]
  unfold updateAffiliateStatus
  rw [hf]
  simp +decide [okE, applyAffiliateUpdate, dbC4, affC4, cexInC4]

/-- Claim C5 (amended): after a successful updateRegistrationStatus call,
the returned registration row has the new status; when the new status is
confirmed, confirmed_at is set to the current time and confirmed_by
equals the confirmed_by of the input when provided (null when the optional
field is absent, the handler writing input.confirmed_by || null); for
status pending or cancelled both columns are cleared to null. -/
theorem updateRegistrationStatus_confirmation_fields (db : DB)
    (input : UpdateRegistrationStatusInput) (now : ℕ)
    (r : StudentRegistration) (rest : List StudentRegistration)
    (hfind : db.registrations.filter (fun x => x.id == input.registration_id) = r :: rest) :
    ∃ db2 r2, updateRegistrationStatus db input now = Except.ok (db2, r2) ∧
      r2.status = input.status ∧
      (input.status = RegistrationStatus.confirmed →
        r2.confirmed_at = some now ∧
        (input.confirmed_by = none → r2.confirmed_by = none) ∧
        (∀ u, input.confirmed_by = some u → u ≠ 0 → r2.confirmed_by = some u)) ∧
      (input.status ≠ RegistrationStatus.confirmed →
        r2.confirmed_by = none ∧ r2.confirmed_at = none) := by
  have hid : (r.id == input.registration_id) = true :=
    head_filter_pred (fun x => x.id == input.registration_id) db.registrations r rest hfind
  unfold updateRegistrationStatus
  rw [hfind]
  refine ⟨_, _, rfl, ?_, ?_, ?_⟩
  · simp [applyRegistrationUpdate, hid]
  · intro h
    refine ⟨?_, ?_, ?_⟩
    · simp [applyRegistrationUpdate, hid, h]
    · intro hu
      simp [applyRegistrationUpdate, hid, h, hu]
    · intro u hu hu0
      simp [applyRegistrationUpdate, hid, h, hu, hu0]
  · intro h
    have hb : (input.status == RegistrationStatus.confirmed) = false := by
      simp [beq_registrationStatus, h]
    constructor
    · simp [applyRegistrationUpdate, hid, hb]
    · simp [applyRegistrationUpdate, hid, hb]

/-- Pending registration row used for the C5 witness and counterexample. -/
def regC5 : StudentRegistration :=
  { id := 1, affiliate_id := 1, program_id := 1, student_name := "S"
    student_email := "s@example.com", student_phone := "081"
    student_address := none, referral_code := "EBEEE"
    status := RegistrationStatus.pending, registration_fee := 1000000
    commission_amount := 100000, confirmed_by := none, confirmed_at := none
    created_at := 1, updated_at := 1 }

/-- Database used for the C5 witness and counterexample. -/
def dbC5 : DB :=
  { users := [], affiliates := [], programs := [], registrations := [regC5], payouts := [] }

/-- Confirmation input with confirmed_by provided, for the C5 witness. -/
def wInC5 : UpdateRegistrationStatusInput :=
  { registration_id := 1, status := RegistrationStatus.confirmed, confirmed_by := some 2 }

/-- Witness for claim C5 at a concrete database and input. -/
theorem updateRegistrationStatus_confirmation_fields_witness :
    ∃ db2 r2, updateRegistrationStatus dbC5 wInC5 6 = Except.ok (db2, r2) ∧
      r2.status = wInC5.status ∧
      (wInC5.status = RegistrationStatus.confirmed →
        r2.confirmed_at = some 6 ∧
        (wInC5.confirmed_by = none → r2.confirmed_by = none) ∧
        (∀ u, wInC5.confirmed_by = some u → u ≠ 0 → r2.confirmed_by = some u)) ∧
      (wInC5.status ≠ RegistrationStatus.confirmed →
        r2.confirmed_by = none ∧ r2.confirmed_at = none) :=
  updateRegistrationStatus_confirmation_fields dbC5 wInC5 6 regC5 []
    (by simp +decide [dbC5, regC5, wInC5, List.filter])

/-- Confirmation input without confirmed_by, for the C5 counterexample. -/
def cexInC5 : UpdateRegistrationStatusInput :=
  { registration_id := 1, status := RegistrationStatus.confirmed, confirmed_by := none }

/-- Counterexample to claim C5 as stated: confirming a registration
without providing confirmed_by (the field is optional in the input
schema, and the own test of the handler expects null in this case) produces a
row with status confirmed, confirmed_at set, but confirmed_by null, so
confirmed_by is not set although the new status is confirmed. -/
theorem updateRegistrationStatus_claim_cex :
    (okE (updateRegistrationStatus dbC5 cexInC5 10)).map
        (fun x => (x.2.status, x.2.confirmed_by, x.2.confirmed_at)) =
      some (RegistrationStatus.confirmed, none, some 10) := by
  have hf : dbC5.registrations.filter (fun x => x.id == cexInC5.registration_id) =
      [regC5] := by
    simp [dbC5, regC5, cexInC5, List.filter]
  unfold updateRegistrationStatus
  rw [hf]
  simp +decide [okE, applyRegistrationUpdate, dbC5, regC5, cexInC5]

/-- Claim C7 (amended): updatePayoutStatus enforces no transition order
at all: any existing payout, whatever its current status (including the
terminal statuses completed and failed), is set to whatever status the
input carries, so a payout can move from a terminal state back to pending
or processing and can jump directly to a terminal state. -/
theorem updatePayoutStatus_no_transition_guard (db : DB)
    (input : UpdatePayoutStatusInput) (now : ℕ)
    (p : CommissionPayout) (rest : List CommissionPayout)
    (hfind : db.payouts.filter (fun x => x.id == input.payout_id) = p :: rest) :
    ∃ db2 p2, updatePayoutStatus db input now = Except.ok (db2, p2) ∧
      p2.status = input.status := by
  have hid : (p.id == input.payout_id) = true :=
    head_filter_pred (fun x => x.id == input.payout_id) db.payouts p rest hfind
  unfold updatePayoutStatus
  rw [hfind]
  refine ⟨_, _, rfl, ?_⟩
  simp [applyPayoutUpdate, hid]

/-- Completed payout row used for the C7 and C8 witnesses and
counterexamples; its processed columns are set. -/
def payC7 : CommissionPayout :=
  { id := 1, affiliate_id := 1, amount := 150000
    method := PayoutMethod.bank_transfer, bank_details := none
    ewallet_details := none, status := PayoutStatus.completed
    processed_by := some 2, processed_at := some 5, notes := none
    created_at := 2, updated_at := 5 }

/-- Database used for the C7 and C8 witnesses and counterexamples. -/
def dbC7 : DB :=
  { users := [], affiliates := [], programs := [], registrations := [], payouts := [payC7] }

/-- Input setting the completed payout back to pending. -/
def backInC7 : UpdatePayoutStatusInput :=
  { payout_id := 1, status := PayoutStatus.pending, processed_by := none, notes := none }

/-- Witness for claim C7 at a concrete database and input. -/
theorem updatePayoutStatus_no_transition_guard_witness :
    ∃ db2 p2, updatePayoutStatus dbC7 backInC7 9 = Except.ok (db2, p2) ∧
      p2.status = backInC7.status :=
  updatePayoutStatus_no_transition_guard dbC7 backInC7 9 payC7 []
    (by simp +decide [dbC7, payC7, backInC7, List.filter])

/-- Counterexample to claim C7 as stated: a payout whose status is the
terminal completed is moved back to pending by a single
updatePayoutStatus call, which the claimed transition order
pending→processing→completed/failed forbids. -/
theorem updatePayoutStatus_claim_cex :
    payC7.status = PayoutStatus.completed ∧
      (okE (updatePayoutStatus dbC7 backInC7 9)).map (fun x => x.2.status) =
        some PayoutStatus.pending := by
  constructor
  · rfl
  · have hf : dbC7.payouts.filter (fun x => x.id == backInC7.payout_id) = [payC7] := by
      simp [dbC7, payC7, backInC7, List.filter]
    unfold updatePayoutStatus
    rw [hf]
    simp +decide [okE, applyPayoutUpdate, dbC7, payC7, backInC7]

/-- Claim C8 (amended): after updatePayoutStatus on an existing payout,
when the new status is terminal (completed or failed) processed_at is set
to the current time and processed_by equals the processed_by of the input
whenever that optional field is provided; when the new status is pending
or processing the two columns are not part of the update and keep their
previous values — they are left unchanged, not cleared, so they can
remain set on a non-terminal row. -/
theorem updatePayoutStatus_processed_fields (db : DB)
    (input : UpdatePayoutStatusInput) (now : ℕ)
    (p : CommissionPayout) (rest : List CommissionPayout)
    (hfind : db.payouts.filter (fun x => x.id == input.payout_id) = p :: rest) :
    ∃ db2 p2, updatePayoutStatus db input now = Except.ok (db2, p2) ∧
      ((input.status = PayoutStatus.completed ∨ input.status = PayoutStatus.failed) →
        p2.processed_at = some now ∧
        ∀ u, input.processed_by = some u → p2.processed_by = some u) ∧
      ((input.status = PayoutStatus.pending ∨ input.status = PayoutStatus.processing) →
        p2.processed_by = p.processed_by ∧ p2.processed_at = p.processed_at) := by
  have hid : (p.id == input.payout_id) = true :=
    head_filter_pred (fun x => x.id == input.payout_id) db.payouts p rest hfind
  unfold updatePayoutStatus
  rw [hfind]
  refine ⟨_, _, rfl, ?_, ?_⟩
  · intro h
    have hb : (input.status == PayoutStatus.completed ||
        input.status == PayoutStatus.failed) = true := by
      rcases h with h | h <;> simp [beq_payoutStatus, h]
    constructor
    · simp [applyPayoutUpdate, hid, hb]
    · intro u hu
      simp [applyPayoutUpdate, hid, hb, hu]
  · intro h
    have hb : (input.status == PayoutStatus.completed ||
        input.status == PayoutStatus.failed) = false := by
      rcases h with h | h <;> simp [beq_payoutStatus, h]
    constructor
    · simp [applyPayoutUpdate, hid, hb]
    · simp [applyPayoutUpdate, hid, hb]

/-- Input completing a payout with processed_by provided, for the C8
witness. -/
def wInC8 : UpdatePayoutStatusInput :=
  { payout_id := 1, status := PayoutStatus.completed, processed_by := some 2
    notes := none }

/-- Witness for claim C8 at a concrete database and input. -/
theorem updatePayoutStatus_processed_fields_witness :
    ∃ db2 p2, updatePayoutStatus dbC7 wInC8 9 = Except.ok (db2, p2) ∧
      ((wInC8.status = PayoutStatus.completed ∨ wInC8.status = PayoutStatus.failed) →
        p2.processed_at = some 9 ∧
        ∀ u, wInC8.processed_by = some u → p2.processed_by = some u) ∧
      ((wInC8.status = PayoutStatus.pending ∨ wInC8.status = PayoutStatus.processing) →
        p2.processed_by = payC7.processed_by ∧ p2.processed_at = payC7.processed_at) :=
  updatePayoutStatus_processed_fields dbC7 wInC8 9 payC7 []
    (by simp +decide [dbC7, payC7, wInC8, List.filter])

/-- Counterexample to claim C8 as stated: setting a payout whose
processed columns are already populated to the non-terminal status
pending leaves processed_by and processed_at set, so after the call the
row has processed columns set although the new status is not terminal —
they are set-or-kept, not set exactly on terminal states. -/
theorem updatePayoutStatus_processed_claim_cex :
    (okE (updatePayoutStatus dbC7 backInC7 9)).map
        (fun x => (x.2.status, x.2.processed_by, x.2.processed_at)) =
      some (PayoutStatus.pending, some 2, some 5) := by
  have hf : dbC7.payouts.filter (fun x => x.id == backInC7.payout_id) = [payC7] := by
    simp [dbC7, payC7, backInC7, List.filter]
  unfold updatePayoutStatus
  rw [hf]
  simp +decide [okE, applyPayoutUpdate, dbC7, payC7, backInC7]

/-- A successful run of the referral-code loop yields a code that is not
in the table, and when started below the bound it uses at most 10
attempts.  The fuel k bounds the remaining attempts for the induction. -/
lemma codeLoop_ok_spec (existing : List String) (gen : ℕ → String) :
    ∀ k attempts c n, 10 - attempts ≤ k →
      codeLoop existing gen attempts = Except.ok (c, n) →
      c ∉ existing ∧ (attempts < 10 → n ≤ 10) := by
  intro k
  induction k with
  | zero =>
    intro attempts c n hk h
    unfold codeLoop at h
    split at h
    · exact absurd h (by simp)
    · rename_i h1
      split at h
      · rename_i h2
        exact absurd ⟨by omega, h2⟩ h1
      · rename_i h2
        simp only [Except.ok.injEq, Prod.mk.injEq] at h
        obtain ⟨hc, hn⟩ := h
        subst hc
        subst hn
        exact ⟨h2, fun hlt => by omega⟩
  | succ k ih =>
    intro attempts c n hk h
    unfold codeLoop at h
    split at h
    · exact absurd h (by simp)
    · rename_i h1
      split at h
      · rename_i h2
        have hlt : attempts + 1 < 10 := by
          by_contra hc
          exact h1 ⟨by omega, h2⟩
        have := ih (attempts + 1) c n (by omega) h
        exact ⟨this.1, fun _ => this.2 (by omega)⟩
      · rename_i h2
        simp only [Except.ok.injEq, Prod.mk.injEq] at h
        obtain ⟨hc, hn⟩ := h
        subst hc
        subst hn
        exact ⟨h2, fun hlt => by omega⟩

/-- When the referral-code loop throws, every attempt from the current
one up to the bound of 10 produced a code that is already in the table:
the loop fails only after exhausting its attempts. -/
lemma codeLoop_error_spec (existing : List String) (gen : ℕ → String) :
    ∀ k attempts e, 10 - attempts ≤ k →
      codeLoop existing gen attempts = Except.error e →
      ∀ i, attempts ≤ i → i < 10 → gen i ∈ existing := by
  intro k
  induction k with
  | zero =>
    intro attempts e hk h i hi1 hi2
    omega
  | succ k ih =>
    intro attempts e hk h i hi1 hi2
    unfold codeLoop at h
    split at h
    · rename_i h1
      have heq : i = attempts := by omega
      subst heq
      exact h1.2
    · rename_i h1
      split at h
      · rename_i h2
        have hlt : attempts + 1 < 10 := by
          by_contra hc
          exact h1 ⟨by omega, h2⟩
        rcases Nat.eq_or_lt_of_le hi1 with heq | hgt
        · subst heq
          exact h2
        · exact ih (attempts + 1) e (by omega) h i hgt hi2
      · exact absurd h (by simp)

/-- Claim C6: the referral-code generation loop of createAffiliate is
bounded — it terminates for every database and every generator (codeLoop
is a total function); starting from attempt 0 it performs at most 10
attempts; on success the returned code is not already present among the
referral codes already in the table and createAffiliate inserts the new affiliate
with that fresh code and status pending; it throws only after all 10
generated codes collided with existing ones. -/
theorem createAffiliate_referral_loop (db : DB) (input : CreateAffiliateInput)
    (gen : ℕ → String) (newId now : ℕ) :
    (∀ c n, codeLoop (db.affiliates.map (fun a => a.referral_code)) gen 0 =
        Except.ok (c, n) →
      c ∉ db.affiliates.map (fun a => a.referral_code) ∧ n ≤ 10) ∧
    (∀ e, codeLoop (db.affiliates.map (fun a => a.referral_code)) gen 0 =
        Except.error e →
      ∀ i, i < 10 → gen i ∈ db.affiliates.map (fun a => a.referral_code)) ∧
    (∀ db2 aff, createAffiliate db input gen newId now = Except.ok (db2, aff) →
      aff.status = AffiliateStatus.pending ∧
      aff.referral_code ∉ db.affiliates.map (fun a => a.referral_code)) := by
  refine ⟨?_, ?_, ?_⟩
  · intro c n h
    have hs := codeLoop_ok_spec (db.affiliates.map (fun a => a.referral_code)) gen
      10 0 c n (by omega) h
    exact ⟨hs.1, hs.2 (by omega)⟩
  · intro e h i hi
    exact codeLoop_error_spec (db.affiliates.map (fun a => a.referral_code)) gen
      10 0 e (by omega) h i (Nat.zero_le i) hi
  · intro db2 aff h
    unfold createAffiliate at h
    split at h
    · exact absurd h (by simp)
    · split at h
      · exact absurd h (by simp)
      · cases hc : codeLoop (db.affiliates.map (fun a => a.referral_code)) gen 0 with
        | error e =>
          rw [hc] at h
          exact absurd h (by simp)
        | ok v =>
          rw [hc] at h
          obtain ⟨code, n⟩ := v
          simp only [Except.ok.injEq, Prod.mk.injEq] at h
          obtain ⟨hdb, haff⟩ := h
          subst haff
          have hs := codeLoop_ok_spec (db.affiliates.map (fun a => a.referral_code)) gen
            10 0 code n (by omega) hc
          exact ⟨rfl, hs.1⟩

/-- User row used for the C6 witness. -/
def wUserC6 : User :=
  { id := 1, email := "u@example.com", password_hash := "h", full_name := "U"
    phone := none, role := UserRole.affiliate, created_at := 0, updated_at := 0 }

/-- Database used for the C6 witness: one user and no affiliates. -/
def wDbC6 : DB :=
  { users := [wUserC6], affiliates := [], programs := [], registrations := [], payouts := [] }

/-- Input used for the C6 witness. -/
def wInC6 : CreateAffiliateInput :=
  { user_id := 1, bank_name := none, bank_account_number := none
    bank_account_name := none, ewallet_type := none, ewallet_number := none
    commission_rate := 1/10 }

/-- A generator that always produces the same fresh code, for the C6
witness. -/
def wGenC6 : ℕ → String := fun _ => "EBZZZ"

/-- Witness for claim C6: on an empty affiliates table the loop succeeds
at the first attempt with a fresh code. -/
theorem createAffiliate_referral_loop_witness :
    "EBZZZ" ∉ wDbC6.affiliates.map (fun a => a.referral_code) ∧ (1 : ℕ) ≤ 10 :=
  (createAffiliate_referral_loop wDbC6 wInC6 wGenC6 3 7).1 "EBZZZ" 1
    (by unfold codeLoop; simp [wDbC6, wGenC6])

end EnglishBooster
